import Mathlib

/-!
Shallow embedding of the attendance-routes module of the workforce-management
backend (the express router in the repository) and of the meeting-scheduler
component, together with theorems settling the specification claims about
scoping, uniqueness, validation and persistence.

JavaScript conventions are modelled explicitly:
a request-body field that may be absent is an `Option String`, and JS
truthiness of such a field (`!x` in the source) holds exactly when the field
is present and not the empty string.
-/

namespace Hrms

/-- A user document of the directory, as used by the routes: identifier,
display name, email, role string (the source compares roles as raw strings:
admin, hr, employee) and the optional identifier of the account that created
this user. -/
structure User where
  uid : String
  name : String
  email : String
  role : String
  createdBy : Option String
deriving DecidableEq

/-- An attendance document as constructed by the mark-attendance route
(lines 112-119 of the router): subject identifier, denormalized subject name,
status string, optional check-in time, marking actor, and the stored day
boundary. Timestamps are modelled as milliseconds since the epoch. -/
structure AttendanceRecord where
  employeeId : String
  employeeName : String
  status : String
  checkInTime : Option String
  markedBy : String
  date : Nat
deriving DecidableEq

/-- The request body of the mark-attendance route. The handler destructures
only `employeeId`, `status` and `checkInTime` (line 80 of the router); a
`date` field sent by the client is present in the body but never read. -/
structure MarkBody where
  employeeId : Option String
  status : Option String
  checkInTime : Option String
  date : Option Nat
deriving DecidableEq

/-- An HTTP response of the mark-attendance route: status code, the optional
`message` field of the JSON payload, and the attendance record when the
payload is a record (the 201 success path returns the saved document; every
rejection returns only a message). -/
structure Response where
  status : Nat
  message : Option String
  record : Option AttendanceRecord
deriving DecidableEq

/-- JS truthiness of an optional string body field: absent, null and the
empty string are falsy, every other string is truthy. -/
def truthy : Option String → Bool
  | none => false
  | some s => s != ""

/-- Modelled from the spec: the closed enumerated status set
`ATTENDANCE_STATUS` imported from `constants/enums`, a file outside the
provided sources; the spec enumerates the statuses present, absent, leave
and half-day. -/
def ATTENDANCE_STATUS : List String := ["present", "absent", "leave", "half-day"]

/-- Milliseconds in one calendar day. -/
def msPerDay : Nat := 86400000

/-- Modelled from the spec: `getTodayRange` imported from `utils/date`, a
file outside the provided sources; per the spec the incoming timestamp is
truncated to the start of day in a single canonical way, and the range is
the half-open interval from the start of day to the start of the next day. -/
def getTodayRange (now : Nat) : Nat × Nat :=
  let today := now - now % msPerDay
  (today, today + msPerDay)

/-- First validation gate of the mark-attendance route (line 83): fails when
`employeeId` is falsy, `status` is falsy, or `status` is not in the
enumerated status set. -/
def fieldCheckFails (body : MarkBody) : Bool :=
  !truthy body.employeeId || !truthy body.status ||
    !(ATTENDANCE_STATUS.contains (body.status.getD ""))

/-- Second validation gate of the mark-attendance route (line 87): fails when
the status is present and the check-in time is falsy. -/
def checkInMissing (body : MarkBody) : Bool :=
  body.status == some "present" && !truthy body.checkInTime

/-- The subject lookup of the mark-attendance route (lines 91-95):
`User.findOne` on the identifier, with role fixed to employee, and with the
`createdBy` filter spread in exactly when the caller role is hr. -/
def findEmployee (users : List User) (caller : User) (employeeId : String) :
    Option User :=
  users.find? fun u =>
    u.uid == employeeId && u.role == "employee" &&
      (if caller.role == "hr" then u.createdBy == some caller.uid else true)

/-- The duplicate lookup of the mark-attendance route (lines 103-106):
`Attendance.findOne` on the subject identifier with the stored date inside
the half-open today range. -/
def dupFind (store : List AttendanceRecord) (employeeId : String) (now : Nat) :
    Option AttendanceRecord :=
  let range := getTodayRange now
  store.find? fun r =>
    r.employeeId == employeeId && (decide (range.1 ≤ r.date) && decide (r.date < range.2))

/-- Response of the first validation gate (line 84). -/
def invalidInputResp : Response :=
  { status := 400, message := some "Invalid input. Check employeeId and status.",
    record := none }

/-- Response of the second validation gate (line 88). -/
def checkInRequiredResp : Response :=
  { status := 400, message := some "Check-in time required for present status.",
    record := none }

/-- Response of the failed subject lookup (line 98): the single merged
not-found-or-forbidden outcome. -/
def notFoundResp : Response :=
  { status := 404, message := some "Employee not found or access denied",
    record := none }

/-- Response of the duplicate check (line 109): a message only, with no
record in the payload. -/
def duplicateResp : Response :=
  { status := 400, message := some "Attendance already marked for today",
    record := none }

/-- Modelled from the spec: the response of the `authorize` middleware, a
file outside the provided sources, which rejects callers whose role is not
among the listed privileged roles. -/
def forbiddenResp : Response :=
  { status := 403, message := some "Access denied", record := none }

/-- The mark-attendance route (router.post, lines 78-129): the authorize
middleware admits only hr and admin callers; then the two validation gates,
the merged subject lookup, the duplicate check, and finally construction and
persistence of the record, with the check-in time kept only for present
status and the date set to the shared today boundary. -/
def markAttendance (users : List User) (store : List AttendanceRecord)
    (caller : User) (body : MarkBody) (now : Nat) : Response :=
  if !(caller.role == "hr" || caller.role == "admin") then
    forbiddenResp
  else if fieldCheckFails body then
    invalidInputResp
  else if checkInMissing body then
    checkInRequiredResp
  else
    match findEmployee users caller (body.employeeId.getD "") with
    | none => notFoundResp
    | some employee =>
      match dupFind store (body.employeeId.getD "") now with
      | some _ => duplicateResp
      | none =>
        { status := 201, message := none,
          record := some {
            employeeId := body.employeeId.getD "",
            employeeName := employee.name,
            status := body.status.getD "",
            checkInTime := if body.status == some "present" then body.checkInTime else none,
            markedBy := caller.uid,
            date := (getTodayRange now).1 } }

/-- The sort of the list-attendance route (line 27): date descending. -/
def sortByDateDesc (records : List AttendanceRecord) : List AttendanceRecord :=
  records.mergeSort fun a b => b.date ≤ a.date

/-- The list-attendance route (router.get on the root path, lines 11-34):
any authenticated caller; an employee caller is restricted to their own
records, an hr caller to records of users they created (returning early with
an empty list, before any attendance query, when that set is empty), and any
other caller (admin) gets the unfiltered store; results are sorted by date
descending. The boolean of the pair records whether the attendance store was
queried. -/
def listAttendance (users : List User) (store : List AttendanceRecord)
    (caller : User) : List AttendanceRecord × Bool :=
  if caller.role == "employee" then
    (sortByDateDesc (store.filter fun r => r.employeeId == caller.uid), true)
  else if caller.role == "hr" then
    let employees := users.filter fun u => u.createdBy == some caller.uid
    if employees.length == 0 then ([], false)
    else
      let employeeIds := employees.map fun emp => emp.uid
      (sortByDateDesc (store.filter fun r => employeeIds.contains r.employeeId), true)
  else
    (sortByDateDesc store, true)

/-- Result of the today-attendance route: the authorize middleware may
reject the caller outright; otherwise a record list is returned together
with a boolean recording whether the attendance store was queried. -/
inductive TodayResult
  | forbidden
  | ok (records : List AttendanceRecord) (queriedStore : Bool)
deriving DecidableEq

/-- The today-attendance route (router.get on the today path, lines 37-58):
hr and admin only; the query restricts the date to the half-open today
range, and an hr caller is further restricted to records of users they
created, returning early with an empty list, before any attendance query,
when that set is empty. -/
def listTodayAttendance (users : List User) (store : List AttendanceRecord)
    (caller : User) (now : Nat) : TodayResult :=
  if !(caller.role == "hr" || caller.role == "admin") then
    .forbidden
  else
    let range := getTodayRange now
    if caller.role == "hr" then
      let employees := users.filter fun u => u.createdBy == some caller.uid
      if employees.length == 0 then .ok [] false
      else
        let employeeIds := employees.map fun emp => emp.uid
        .ok (store.filter fun r =>
          (decide (range.1 ≤ r.date) && decide (r.date < range.2)) &&
            employeeIds.contains r.employeeId) true
    else
      .ok (store.filter fun r =>
        decide (range.1 ≤ r.date) && decide (r.date < range.2)) true

/-- The form state of the meeting-scheduler component (lines 10-16 of the
component). -/
structure MeetingForm where
  title : String
  description : String
  dateTime : String
  duration : Nat
  attendees : List String
deriving DecidableEq

/-- The initial form state of the meeting-scheduler component. -/
def initialForm : MeetingForm :=
  { title := "", description := "", dateTime := "", duration := 60, attendees := [] }

/-- Modelled from the spec: `getUsersByRole` of the authentication context,
a file outside the provided sources; per the data model it returns the
directory users holding the given role. -/
def getUsersByRole (users : List User) (role : String) : List User :=
  users.filter fun u => u.role == role

/-- The selectable attendees of the meeting-scheduler component (line 18):
hr users for an admin organizer, otherwise the employees created by the
current user. -/
def targetUsers (users : List User) (currentUser : User) (role : String) :
    List User :=
  if role == "admin" then getUsersByRole users "hr"
  else (getUsersByRole users "employee").filter fun emp =>
    emp.createdBy == some currentUser.uid

/-- The attendee toggle of the meeting-scheduler component (lines 43-50):
remove the identifier when already selected, otherwise append it. -/
def handleAttendeeChange (form : MeetingForm) (userId : String) : MeetingForm :=
  { form with attendees :=
      if form.attendees.contains userId then
        form.attendees.filter fun i => i != userId
      else form.attendees ++ [userId] }

/-- The payload handed to `addMeeting` on a successful submission: the form
fields plus the organizer identifier. -/
structure Meeting where
  title : String
  description : String
  dateTime : String
  duration : Nat
  attendees : List String
  scheduledBy : String
deriving DecidableEq

/-- Outcome of a form submission: rejected with an alert and no meeting
added, or submitted with the meeting payload. -/
inductive SubmitResult
  | rejected
  | submitted (m : Meeting)
deriving DecidableEq

/-- Whitespace for the JS string trim method: space, tab, line feed,
carriage return, vertical tab and form feed. -/
def isJsWhitespace (c : Char) : Bool :=
  c = ' ' || c = '\t' || c = '\n' || c = '\r' || c = '\x0b' || c = '\x0c'

/-- The JS string trim method: drop leading and trailing whitespace. -/
def jsTrim (s : String) : String :=
  String.mk (((s.data.dropWhile isJsWhitespace).reverse.dropWhile isJsWhitespace).reverse)

/-- The submit handler of the meeting-scheduler component (lines 21-41):
reject when the trimmed title is empty, the date-time string is empty, or no
attendee is selected; otherwise add the meeting with the current user as
organizer. -/
def handleSubmit (currentUser : User) (form : MeetingForm) : SubmitResult :=
  if jsTrim form.title == "" || form.dateTime == "" || form.attendees.length == 0 then
    .rejected
  else
    .submitted { title := form.title, description := form.description,
                 dateTime := form.dateTime, duration := form.duration,
                 attendees := form.attendees, scheduledBy := currentUser.uid }

/-- The user-interface events that mutate the meeting form state. -/
inductive FormEvent
  | setTitle (s : String)
  | setDescription (s : String)
  | setDateTime (s : String)
  | setDuration (n : Nat)
  | toggleAttendee (uid : String)
deriving DecidableEq

/-- One step of the meeting-form state machine. The component renders an
attendee checkbox only for the users in `targetUsers` (lines 139-149), so a
toggle event reaches `handleAttendeeChange` exactly when its identifier
belongs to a target user; the other fields accept arbitrary strings. -/
def applyEvent (users : List User) (currentUser : User) (role : String)
    (form : MeetingForm) : FormEvent → MeetingForm
  | .setTitle s => { form with title := s }
  | .setDescription s => { form with description := s }
  | .setDateTime s => { form with dateTime := s }
  | .setDuration n => { form with duration := n }
  | .toggleAttendee u =>
      if (targetUsers users currentUser role).any fun t => t.uid == u then
        handleAttendeeChange form u
      else form

/-- The form state reached from the initial state by a sequence of events. -/
def runForm (users : List User) (currentUser : User) (role : String)
    (events : List FormEvent) : MeetingForm :=
  events.foldl (applyEvent users currentUser role) initialForm

/-- Modelled from the spec: the scope resolver of section 4.2. A subject is
in the scope of a caller when the caller is admin (unrestricted), when the
caller is hr and the subject was created by the caller, or otherwise when
the subject is the caller. -/
def inScope (users : List User) (caller : User) (subjectId : String) : Prop :=
  if caller.role = "admin" then True
  else if caller.role = "hr" then
    ∃ u ∈ users, u.uid = subjectId ∧ u.createdBy = some caller.uid
  else subjectId = caller.uid

/-! ### Concrete directory fixtures used by counterexamples and witnesses -/

/-- A root admin account. -/
def adminRoot : User :=
  { uid := "u-admin", name := "Root Admin", email := "admin@corp", role := "admin",
    createdBy := none }

/-- An hr account created by the admin. -/
def hrOne : User :=
  { uid := "u-hr1", name := "HR One", email := "hr1@corp", role := "hr",
    createdBy := some "u-admin" }

/-- A second hr account created by the admin. -/
def hrTwo : User :=
  { uid := "u-hr2", name := "HR Two", email := "hr2@corp", role := "hr",
    createdBy := some "u-admin" }

/-- An employee created by the first hr account. -/
def empOne : User :=
  { uid := "u-emp1", name := "Emp One", email := "emp1@corp", role := "employee",
    createdBy := some "u-hr1" }

/-- An employee created by the second hr account. -/
def empTwo : User :=
  { uid := "u-emp2", name := "Emp Two", email := "emp2@corp", role := "employee",
    createdBy := some "u-hr2" }

/-- The sample directory. -/
def dirUsers : List User := [adminRoot, hrOne, hrTwo, empOne, empTwo]

/-- An attendance record for the first employee at day boundary zero. -/
def recEmpOne : AttendanceRecord :=
  { employeeId := "u-emp1", employeeName := "Emp One", status := "present",
    checkInTime := some "09:00", markedBy := "u-hr1", date := 0 }

/-! ### Helper lemmas -/

/-- A body field is truthy exactly when it holds a non-empty string. -/
theorem truthy_iff (o : Option String) : truthy o = true ↔ ∃ s, o = some s ∧ s ≠ "" := by
  cases o <;> simp [truthy]

/-- Characterization of the success path of the mark-attendance route: a
response carrying a record implies a privileged caller, both validation
gates passed, a successful subject lookup, an empty duplicate lookup, and
the exact shape of the persisted record. -/
theorem mark_success_shape
    (users : List User) (store : List AttendanceRecord) (caller : User)
    (body : MarkBody) (now : Nat) (rec : AttendanceRecord)
    (h : (markAttendance users store caller body now).record = some rec) :
    (caller.role = "hr" ∨ caller.role = "admin") ∧
    fieldCheckFails body = false ∧ checkInMissing body = false ∧
    (∃ employee, findEmployee users caller (body.employeeId.getD "") = some employee ∧
      rec = { employeeId := body.employeeId.getD "",
              employeeName := employee.name,
              status := body.status.getD "",
              checkInTime := if body.status == some "present" then body.checkInTime else none,
              markedBy := caller.uid,
              date := (getTodayRange now).1 }) ∧
    dupFind store (body.employeeId.getD "") now = none := by
  unfold markAttendance at h
  split at h
  next hrole => simp [forbiddenResp] at h
  next hrole =>
    split at h
    next hf => simp [invalidInputResp] at h
    next hf =>
      split at h
      next hc => simp [checkInRequiredResp] at h
      next hc =>
        split at h
        next heq => simp [notFoundResp] at h
        next employee heq =>
          split at h
          next r hdup => simp [duplicateResp] at h
          next hdup =>
            simp only [Option.some.injEq] at h
            refine ⟨?_, ?_, ?_, ⟨employee, heq, h.symm⟩, hdup⟩
            · exact or_iff_not_imp_left.mpr (by simpa [not_or] using hrole)
            · simpa using hf
            · simpa using hc

/-- C2: for every persisted attendance record, the status is present exactly
when the check-in time is non-null, and a non-present status always persists
a null check-in time even when the input supplied one. -/
theorem mark_persisted_present_iff_checkin
    (users : List User) (store : List AttendanceRecord) (caller : User)
    (body : MarkBody) (now : Nat) (rec : AttendanceRecord)
    (h : (markAttendance users store caller body now).record = some rec) :
    (rec.status = "present" ↔ rec.checkInTime ≠ none) ∧
    (rec.status ≠ "present" → rec.checkInTime = none) := by
  obtain ⟨-, hf, hc, ⟨employee, -, hrec⟩, -⟩ :=
    mark_success_shape users store caller body now rec h
  have hstat : truthy body.status = true := by
    simp [fieldCheckFails] at hf
    exact hf.1.2
  obtain ⟨s, hs, hne⟩ := (truthy_iff body.status).1 hstat
  subst hrec
  by_cases hp : s = "present"
  · subst hp
    have hcheck : truthy body.checkInTime = true := by
      simp [checkInMissing, hs] at hc
      exact hc
    obtain ⟨t, ht, hte⟩ := (truthy_iff body.checkInTime).1 hcheck
    simp [hs, ht]
  · simp [hs, hp]

/-- Witness for C2: a concrete successful present-marking, evaluated on the
sample directory. -/
theorem mark_persisted_present_iff_checkin_witness :
    (markAttendance dirUsers [] hrOne
      { employeeId := some "u-emp1", status := some "present",
        checkInTime := some "09:00", date := none } 5000).record = some recEmpOne ∧
    ((recEmpOne.status = "present" ↔ recEmpOne.checkInTime ≠ none) ∧
     (recEmpOne.status ≠ "present" → recEmpOne.checkInTime = none)) :=
  ⟨by decide,
   mark_persisted_present_iff_checkin dirUsers [] hrOne
     { employeeId := some "u-emp1", status := some "present",
       checkInTime := some "09:00", date := none } 5000 recEmpOne (by decide)⟩

/-- C7: for every successful mark-attendance write, the stored date equals
the lower bound of the half-open interval searched by the duplicate check,
both coming from the one shared today-range normalization; consequently the
stored record itself falls inside the searched interval, and a repeat of the
same search over the store extended with the new record finds it. -/
theorem mark_date_matches_uniqueness_interval
    (users : List User) (store : List AttendanceRecord) (caller : User)
    (body : MarkBody) (now : Nat) (rec : AttendanceRecord)
    (h : (markAttendance users store caller body now).record = some rec) :
    rec.date = (getTodayRange now).1 ∧
    dupFind store rec.employeeId now = none ∧
    (getTodayRange now).1 ≤ rec.date ∧ rec.date < (getTodayRange now).2 ∧
    dupFind (rec :: store) rec.employeeId now = some rec := by
  obtain ⟨-, -, -, ⟨employee, -, hrec⟩, hdup⟩ :=
    mark_success_shape users store caller body now rec h
  subst hrec
  refine ⟨rfl, hdup, Nat.le_refl _, ?_, ?_⟩
  · simp [getTodayRange, msPerDay]
  · simp [dupFind, List.find?, getTodayRange, msPerDay]

/-- Witness for C7: a concrete successful present-marking on the sample
directory, with the duplicate-interval facts evaluated. -/
theorem mark_date_matches_uniqueness_interval_witness :
    (markAttendance dirUsers [] hrOne
      { employeeId := some "u-emp1", status := some "present",
        checkInTime := some "09:00", date := none } 7000).record = some recEmpOne ∧
    (recEmpOne.date = (getTodayRange 7000).1 ∧
     dupFind [] recEmpOne.employeeId 7000 = none ∧
     (getTodayRange 7000).1 ≤ recEmpOne.date ∧ recEmpOne.date < (getTodayRange 7000).2 ∧
     dupFind [recEmpOne] recEmpOne.employeeId 7000 = some recEmpOne) :=
  ⟨by decide,
   mark_date_matches_uniqueness_interval dirUsers [] hrOne
     { employeeId := some "u-emp1", status := some "present",
       checkInTime := some "09:00", date := none } 7000 recEmpOne (by decide)⟩

/-- C10: every persisted record carries the current server day boundary as
its date, and the route reads no date from the request body: replacing the
date field of the body leaves the response unchanged. -/
theorem mark_date_is_server_day
    (users : List User) (store : List AttendanceRecord) (caller : User)
    (body : MarkBody) (now : Nat) (rec : AttendanceRecord)
    (h : (markAttendance users store caller body now).record = some rec) :
    rec.date = now - now % msPerDay ∧
    ∀ d, markAttendance users store caller
        { employeeId := body.employeeId, status := body.status,
          checkInTime := body.checkInTime, date := d } now =
      markAttendance users store caller body now := by
  constructor
  · obtain ⟨-, -, -, ⟨employee, -, hrec⟩, -⟩ :=
      mark_success_shape users store caller body now rec h
    subst hrec
    rfl
  · intro d
    rfl

/-- The record persisted by the C10 witness call: an absent marking on the
second calendar day. -/
def recEmpTwoAbsent : AttendanceRecord :=
  { employeeId := "u-emp2", employeeName := "Emp Two", status := "absent",
    checkInTime := none, markedBy := "u-admin", date := 86400000 }

/-- Witness for C10: a concrete absent-marking by the admin on day one, with
a date field in the body that the route ignores. -/
theorem mark_date_is_server_day_witness :
    (markAttendance dirUsers [] adminRoot
      { employeeId := some "u-emp2", status := some "absent",
        checkInTime := some "11:00", date := some 12345 } 86400007).record =
      some recEmpTwoAbsent ∧
    (recEmpTwoAbsent.date = 86400007 - 86400007 % msPerDay ∧
     ∀ d, markAttendance dirUsers [] adminRoot
        { employeeId := some "u-emp2", status := some "absent",
          checkInTime := some "11:00", date := d } 86400007 =
      markAttendance dirUsers [] adminRoot
        { employeeId := some "u-emp2", status := some "absent",
          checkInTime := some "11:00", date := some 12345 } 86400007) :=
  ⟨by decide,
   mark_date_is_server_day dirUsers [] adminRoot
     { employeeId := some "u-emp2", status := some "absent",
       checkInTime := some "11:00", date := some 12345 } 86400007 recEmpTwoAbsent
     (by decide)⟩

/-- C1 counterexample: a request whose subject is outside the hr caller
scope and whose status is invalid is rejected by the field validation gate
with the 400 invalid-input response, not with the 404 merged
not-found-or-forbidden response the claim requires, so the scope check does
not run first. -/
theorem scope_is_not_checked_first :
    markAttendance dirUsers [] hrOne
      { employeeId := some "u-emp2", status := some "bogus",
        checkInTime := none, date := none } 0 = invalidInputResp ∧
    findEmployee dirUsers hrOne "u-emp2" = none ∧
    ¬ inScope dirUsers hrOne "u-emp2" ∧
    invalidInputResp ≠ notFoundResp := by
  refine ⟨by decide, by decide, ?_, by decide⟩
  simp [inScope, hrOne, dirUsers, adminRoot, hrTwo, empOne, empTwo]

/-- C1 (amended): the route checks every request in the order field
validation, conditional check-in validation, scope lookup, uniqueness, each
exit short-circuiting the rest: invalid fields reject with the invalid-input
response regardless of scope and store; with valid fields a failed subject
lookup rejects with the merged not-found-or-forbidden response regardless of
the store; and only then a conflicting record rejects as duplicate. -/
theorem mark_check_order
    (users : List User) (store : List AttendanceRecord) (caller : User)
    (body : MarkBody) (now : Nat)
    (hrole : caller.role = "hr" ∨ caller.role = "admin") :
    (fieldCheckFails body = true →
      markAttendance users store caller body now = invalidInputResp) ∧
    (fieldCheckFails body = false → checkInMissing body = true →
      markAttendance users store caller body now = checkInRequiredResp) ∧
    (fieldCheckFails body = false → checkInMissing body = false →
      findEmployee users caller (body.employeeId.getD "") = none →
      markAttendance users store caller body now = notFoundResp) ∧
    (fieldCheckFails body = false → checkInMissing body = false →
      ∀ employee, findEmployee users caller (body.employeeId.getD "") = some employee →
      ∀ r, dupFind store (body.employeeId.getD "") now = some r →
      markAttendance users store caller body now = duplicateResp) := by
  have hrb : (caller.role == "hr" || caller.role == "admin") = true := by
    rcases hrole with h | h <;> simp [h]
  refine ⟨?_, ?_, ?_, ?_⟩
  · intro hf
    simp [markAttendance, hrb, hf]
  · intro hf hc
    simp [markAttendance, hrb, hf, hc]
  · intro hf hc he
    simp [markAttendance, hrb, hf, hc, he]
  · intro hf hc employee he r hr
    simp [markAttendance, hrb, hf, hc, he, hr]

/-- Witness for the amended C1: with valid fields, an out-of-scope subject
is rejected with the merged not-found-or-forbidden response. -/
theorem mark_check_order_witness :
    markAttendance dirUsers [] hrOne
      { employeeId := some "u-emp2", status := some "half-day",
        checkInTime := none, date := none } 0 = notFoundResp :=
  (mark_check_order dirUsers [] hrOne
    { employeeId := some "u-emp2", status := some "half-day",
      checkInTime := none, date := none } 0 (Or.inl rfl)).2.2.1
    (by decide) (by decide) (by decide)

/-- C8 counterexample: a body with two simultaneous violations (falsy
employeeId, and present status with falsy check-in time) is rejected with
the same single invalid-input message as a body whose only violation is the
falsy employeeId, so the response reports only the first violated rule and
cannot be an aggregate of all violations. -/
theorem validator_not_aggregating :
    fieldCheckFails { employeeId := none, status := some "present",
                      checkInTime := none, date := none } = true ∧
    checkInMissing { employeeId := none, status := some "present",
                     checkInTime := none, date := none } = true ∧
    checkInMissing { employeeId := none, status := some "absent",
                     checkInTime := some "09:00", date := none } = false ∧
    markAttendance dirUsers [] hrOne
      { employeeId := none, status := some "present",
        checkInTime := none, date := none } 0 = invalidInputResp ∧
    markAttendance dirUsers [] hrOne
      { employeeId := none, status := some "absent",
        checkInTime := some "09:00", date := none } 0 = invalidInputResp ∧
    invalidInputResp ≠ checkInRequiredResp := by decide

/-- C8 (amended): the validator fails fast on the first violated rule: any
request failing the employeeId-and-status field check is rejected with only
the invalid-input message, even when it also violates the present-check-in
rule; the check-in rule is reported only when the field check passes. -/
theorem validator_fails_fast
    (users : List User) (store : List AttendanceRecord) (caller : User)
    (body : MarkBody) (now : Nat)
    (hrole : caller.role = "hr" ∨ caller.role = "admin")
    (hf : fieldCheckFails body = true) :
    markAttendance users store caller body now = invalidInputResp := by
  have hrb : (caller.role == "hr" || caller.role == "admin") = true := by
    rcases hrole with h | h <;> simp [h]
  simp [markAttendance, hrb, hf]

/-- Witness for the amended C8: the doubly violating body is rejected with
the invalid-input response alone. -/
theorem validator_fails_fast_witness :
    markAttendance dirUsers [] hrTwo
      { employeeId := none, status := some "present",
        checkInTime := none, date := none } 3000 = invalidInputResp :=
  validator_fails_fast dirUsers [] hrTwo
    { employeeId := none, status := some "present",
      checkInTime := none, date := none } 3000 (Or.inl rfl) (by decide)

/-- C5 counterexample: a request whose subject is a non-employee user but
which also misses the check-in time for a present status is rejected by
validation with 400, not with the merged not-found-or-forbidden outcome the
claim requires for every such request. -/
theorem merged_rejection_preempted_by_validation :
    markAttendance dirUsers [] adminRoot
      { employeeId := some "u-hr1", status := some "present",
        checkInTime := none, date := none } 0 = checkInRequiredResp ∧
    (∀ u ∈ dirUsers, u.uid = "u-hr1" → u.role ≠ "employee") ∧
    checkInRequiredResp ≠ notFoundResp := by decide

/-- C5 (amended): for every request that passes both validation gates, a
subject identifier that matches no user, one that matches only non-employee
users, and (for an hr caller) one whose matching users were not created by
the caller all produce the single merged not-found-or-forbidden response, so
the caller-visible error never distinguishes the three causes. -/
theorem merged_not_found_or_forbidden
    (users : List User) (store : List AttendanceRecord) (caller : User)
    (body : MarkBody) (now : Nat)
    (hrole : caller.role = "hr" ∨ caller.role = "admin")
    (hf : fieldCheckFails body = false)
    (hc : checkInMissing body = false)
    (hcase : (∀ u ∈ users, u.uid ≠ body.employeeId.getD "") ∨
             (∀ u ∈ users, u.uid = body.employeeId.getD "" → u.role ≠ "employee") ∨
             (caller.role = "hr" ∧
               ∀ u ∈ users, u.uid = body.employeeId.getD "" →
                 u.createdBy ≠ some caller.uid)) :
    markAttendance users store caller body now = notFoundResp := by
  have hrb : (caller.role == "hr" || caller.role == "admin") = true := by
    rcases hrole with h | h <;> simp [h]
  have he : findEmployee users caller (body.employeeId.getD "") = none := by
    rw [findEmployee, List.find?_eq_none]
    intro u hu
    rcases hcase with h | h | ⟨hhr, h⟩
    · simp [h u hu]
    · by_cases hid : u.uid = body.employeeId.getD ""
      · simp [hid, h u hu hid]
      · simp [hid]
    · by_cases hid : u.uid = body.employeeId.getD ""
      · simp [hid, hhr, h u hu hid]
      · simp [hid]
  simp [markAttendance, hrb, hf, hc, he]

/-- Witness for the amended C5: an hr caller naming a subject identifier
matching no user in the directory receives the merged rejection. -/
theorem merged_not_found_or_forbidden_witness :
    markAttendance dirUsers [] hrOne
      { employeeId := some "u-ghost", status := some "leave",
        checkInTime := none, date := none } 0 = notFoundResp :=
  merged_not_found_or_forbidden dirUsers [] hrOne
    { employeeId := some "u-ghost", status := some "leave",
      checkInTime := none, date := none } 0 (Or.inl rfl) (by decide) (by decide)
    (Or.inl (by decide))

/-- C6 counterexample: a duplicate marking attempt is rejected with the
fixed already-marked message, and the rejection response carries no record
at all, in particular not the conflicting existing record. -/
theorem duplicate_rejection_has_no_record :
    markAttendance dirUsers [recEmpOne] hrOne
      { employeeId := some "u-emp1", status := some "present",
        checkInTime := some "09:00", date := none } 5000 = duplicateResp ∧
    dupFind [recEmpOne] "u-emp1" 5000 = some recEmpOne ∧
    duplicateResp.record = none := by decide

/-- C6 (amended): every marking attempt for a (subject, day) pair that
already has a record is rejected with status 400 and the fixed
already-marked message; the rejection carries no record in its payload. -/
theorem duplicate_rejection_shape
    (users : List User) (store : List AttendanceRecord) (caller : User)
    (body : MarkBody) (now : Nat)
    (hrole : caller.role = "hr" ∨ caller.role = "admin")
    (hf : fieldCheckFails body = false)
    (hc : checkInMissing body = false)
    (employee : User)
    (he : findEmployee users caller (body.employeeId.getD "") = some employee)
    (r : AttendanceRecord)
    (hr : dupFind store (body.employeeId.getD "") now = some r) :
    markAttendance users store caller body now = duplicateResp ∧
    duplicateResp.status = 400 ∧
    duplicateResp.message = some "Attendance already marked for today" ∧
    duplicateResp.record = none := by
  have hrb : (caller.role == "hr" || caller.role == "admin") = true := by
    rcases hrole with h | h <;> simp [h]
  exact ⟨by simp [markAttendance, hrb, hf, hc, he, hr], rfl, rfl, rfl⟩

/-- Witness for the amended C6: a concrete duplicate absent-marking attempt
against the sample store. -/
theorem duplicate_rejection_shape_witness :
    markAttendance dirUsers [recEmpOne] hrOne
      { employeeId := some "u-emp1", status := some "absent",
        checkInTime := none, date := none } 6000 = duplicateResp :=
  (duplicate_rejection_shape dirUsers [recEmpOne] hrOne
    { employeeId := some "u-emp1", status := some "absent",
      checkInTime := none, date := none } 6000 (Or.inl rfl) (by decide) (by decide)
    empOne (by decide) recEmpOne (by decide)).1

/-- Sorting by descending date does not change the record set. -/
theorem mem_sortByDateDesc (r : AttendanceRecord) (l : List AttendanceRecord) :
    r ∈ sortByDateDesc l ↔ r ∈ l := by
  simp [sortByDateDesc, List.mem_mergeSort]

/-- C3: the list-attendance route returns exactly the records whose subject
is in the caller resolved scope: all records for an admin caller, the
records whose subject was created by the caller for an hr caller, and only
the records of the caller for an employee caller. -/
theorem list_attendance_scope
    (users : List User) (store : List AttendanceRecord) (caller : User)
    (rec : AttendanceRecord) :
    (caller.role = "admin" →
      (rec ∈ (listAttendance users store caller).1 ↔ rec ∈ store)) ∧
    (caller.role = "hr" →
      (rec ∈ (listAttendance users store caller).1 ↔
        rec ∈ store ∧ ∃ u ∈ users, u.uid = rec.employeeId ∧
          u.createdBy = some caller.uid)) ∧
    (caller.role = "employee" →
      (rec ∈ (listAttendance users store caller).1 ↔
        rec ∈ store ∧ rec.employeeId = caller.uid)) := by
  refine ⟨?_, ?_, ?_⟩
  · intro hrole
    simp [listAttendance, hrole, mem_sortByDateDesc]
  · intro hrole
    by_cases hemp : (users.filter fun u => u.createdBy == some caller.uid) = []
    · have hforall : ∀ u ∈ users, u.createdBy ≠ some caller.uid := by
        intro u hu hcb
        have : u ∈ (users.filter fun u => u.createdBy == some caller.uid) := by
          simp [List.mem_filter, hu, hcb]
        simp [hemp] at this
      simp [listAttendance, hrole, hemp]
      rintro - u hu - hcb
      exact hforall u hu hcb
    · have hlen : ((users.filter fun u => u.createdBy == some caller.uid).length == 0)
          = false := by
        simpa [List.length_eq_zero] using hemp
      simp only [listAttendance, hrole]
      simp [hlen, mem_sortByDateDesc, List.mem_filter, List.mem_map]
      intro hmem
      constructor
      · rintro ⟨u, ⟨hu, hcb⟩, huid⟩
        exact ⟨u, hu, huid, hcb⟩
      · rintro ⟨u, hu, huid, hcb⟩
        exact ⟨u, ⟨hu, hcb⟩, huid⟩
  · intro hrole
    simp [listAttendance, hrole, mem_sortByDateDesc, List.mem_filter, and_comm]

/-- Witness for C3: the hr scope shape evaluated on the sample directory for
the first hr caller. -/
theorem list_attendance_scope_witness :
    recEmpOne ∈ (listAttendance dirUsers [recEmpOne] hrOne).1 ↔
      recEmpOne ∈ [recEmpOne] ∧ ∃ u ∈ dirUsers, u.uid = recEmpOne.employeeId ∧
        u.createdBy = some hrOne.uid :=
  (list_attendance_scope dirUsers [recEmpOne] hrOne recEmpOne).2.1 rfl

/-- C4: an hr caller with an empty set of created users gets an empty list
from both attendance reads, with the attendance store never queried. -/
theorem hr_empty_scope_short_circuit
    (users : List User) (store : List AttendanceRecord) (caller : User) (now : Nat)
    (hrole : caller.role = "hr")
    (hempty : users.filter (fun u => u.createdBy == some caller.uid) = []) :
    listAttendance users store caller = ([], false) ∧
    listTodayAttendance users store caller now = TodayResult.ok [] false := by
  have hlen : ((users.filter fun u => u.createdBy == some caller.uid).length == 0)
      = true := by
    simp [hempty]
  constructor
  · simp [listAttendance, hrole, hlen]
  · simp [listTodayAttendance, hrole, hlen]

/-- Witness for C4: with the second employee removed from the directory, the
second hr user has created nobody and both reads short-circuit. -/
theorem hr_empty_scope_short_circuit_witness :
    listAttendance [adminRoot, hrOne, hrTwo, empOne] [recEmpOne] hrTwo = ([], false) ∧
    listTodayAttendance [adminRoot, hrOne, hrTwo, empOne] [recEmpOne] hrTwo 5000 =
      TodayResult.ok [] false :=
  hr_empty_scope_short_circuit [adminRoot, hrOne, hrTwo, empOne] [recEmpOne] hrTwo 5000
    rfl (by decide)

/-- Decomposition of membership in the selectable attendee list: a target
user is a directory user, an hr user when the organizer role is admin, and
otherwise an employee created by the current user. -/
theorem mem_targetUsers
    (users : List User) (currentUser : User) (role : String) (u : User)
    (hu : u ∈ targetUsers users currentUser role) :
    u ∈ users ∧ (role = "admin" → u.role = "hr") ∧
      (role ≠ "admin" → u.role = "employee" ∧ u.createdBy = some currentUser.uid) := by
  unfold targetUsers getUsersByRole at hu
  split at hu
  next hcond =>
    rw [beq_iff_eq] at hcond
    have hmem := List.mem_filter.mp hu
    have hur : u.role = "hr" := by
      have := hmem.2
      rwa [beq_iff_eq] at this
    exact ⟨hmem.1, fun _ => hur, fun hne => absurd hcond hne⟩
  next hcond =>
    have hne : role ≠ "admin" := by
      intro h
      exact hcond (by simp [h])
    have hmem := List.mem_filter.mp hu
    have hmem2 := List.mem_filter.mp hmem.1
    have hur : u.role = "employee" := by
      have := hmem2.2
      rwa [beq_iff_eq] at this
    have hcb : u.createdBy = some currentUser.uid := by
      have := hmem.2
      rwa [beq_iff_eq] at this
    exact ⟨hmem2.1, fun hadm => absurd hadm hne, fun _ => ⟨hur, hcb⟩⟩

/-- Reachability invariant of the meeting form: every selected attendee
identifier belongs to a selectable target user, because the component only
renders a checkbox per target user. -/
theorem runForm_attendees_target
    (users : List User) (currentUser : User) (role : String)
    (events : List FormEvent) :
    ∀ a ∈ (runForm users currentUser role events).attendees,
      ∃ u ∈ targetUsers users currentUser role, u.uid = a := by
  suffices h : ∀ form : MeetingForm,
      (∀ a ∈ form.attendees, ∃ u ∈ targetUsers users currentUser role, u.uid = a) →
      ∀ a ∈ (events.foldl (applyEvent users currentUser role) form).attendees,
        ∃ u ∈ targetUsers users currentUser role, u.uid = a by
    exact h initialForm (by simp [initialForm])
  induction events with
  | nil => intro form hf; simpa using hf
  | cons e es ih =>
    intro form hf
    simp only [List.foldl_cons]
    apply ih
    cases e with
    | setTitle s => simpa using hf
    | setDescription s => simpa using hf
    | setDateTime s => simpa using hf
    | setDuration n => simpa using hf
    | toggleAttendee u =>
      simp only [applyEvent]
      split
      next hmem =>
        intro a ha
        simp only [handleAttendeeChange] at ha
        split at ha
        · exact hf a (List.mem_of_mem_filter ha)
        · rcases List.mem_append.mp ha with h1 | h1
          · exact hf a h1
          · simp only [List.mem_singleton] at h1
            subst h1
            obtain ⟨t, ht, htu⟩ := List.any_eq_true.mp hmem
            exact ⟨t, ht, by simpa using htu⟩
      next => exact hf

/-- C9: for every reachable meeting-form state, submission is rejected
exactly when the trimmed title is empty, the date-time is empty, or no
attendee is selected; and every submitted meeting has a non-empty trimmed
title, a date-time, and a non-empty attendee set all of whose members lie in
the organizer authorized scope. -/
theorem meeting_submit_validation
    (users : List User) (currentUser : User) (role : String)
    (events : List FormEvent)
    (hrole : role = currentUser.role)
    (hpriv : role = "admin" ∨ role = "hr") :
    (handleSubmit currentUser (runForm users currentUser role events) =
        SubmitResult.rejected ↔
      (jsTrim (runForm users currentUser role events).title = "" ∨
       (runForm users currentUser role events).dateTime = "" ∨
       (runForm users currentUser role events).attendees = [])) ∧
    (∀ m, handleSubmit currentUser (runForm users currentUser role events) =
        SubmitResult.submitted m →
      jsTrim m.title ≠ "" ∧ m.dateTime ≠ "" ∧ m.attendees ≠ [] ∧
      ∀ a ∈ m.attendees, inScope users currentUser a) := by
  constructor
  · unfold handleSubmit
    split
    next hcond =>
      simp only [Bool.or_eq_true, beq_iff_eq, List.length_eq_zero] at hcond
      exact iff_of_true rfl (or_assoc.mp hcond)
    next hcond =>
      simp only [Bool.or_eq_true, beq_iff_eq, List.length_eq_zero] at hcond
      exact iff_of_false (by simp) fun hdisj => hcond (or_assoc.mpr hdisj)
  · intro m hm
    unfold handleSubmit at hm
    split at hm
    next => exact absurd hm (by simp)
    next hcond =>
      simp only [Bool.or_eq_true, beq_iff_eq, List.length_eq_zero, not_or] at hcond
      obtain ⟨⟨h1, h2⟩, h3⟩ := hcond
      simp only [SubmitResult.submitted.injEq] at hm
      subst hm
      refine ⟨h1, h2, h3, ?_⟩
      intro a ha
      obtain ⟨u, hu, huid⟩ :=
        runForm_attendees_target users currentUser role events a ha
      obtain ⟨humem, hadm, hother⟩ := mem_targetUsers users currentUser role u hu
      rcases hpriv with hadmin | hhr
      · have hcu : currentUser.role = "admin" := hrole ▸ hadmin
        simp [inScope, hcu]
      · have hcu : currentUser.role = "hr" := hrole ▸ hhr
        have hne : role ≠ "admin" := by simp [hhr]
        obtain ⟨-, hcb⟩ := hother hne
        simp only [inScope, hcu]
        refine ⟨u, humem, huid, hcb⟩

/-- The meeting submitted by the C9 witness run. -/
def mtgStandup : Meeting :=
  { title := "Standup", description := "", dateTime := "2026-10-11T10:00",
    duration := 60, attendees := ["u-emp1"], scheduledBy := "u-hr1" }

/-- Witness for C9: a concrete scheduling run by the first hr user selecting
their own employee, with the submitted meeting satisfying all conditions. -/
theorem meeting_submit_validation_witness :
    jsTrim mtgStandup.title ≠ "" ∧ mtgStandup.dateTime ≠ "" ∧
    mtgStandup.attendees ≠ [] ∧
    ∀ a ∈ mtgStandup.attendees, inScope dirUsers hrOne a :=
  (meeting_submit_validation dirUsers hrOne "hr"
    [FormEvent.setTitle "Standup", FormEvent.setDateTime "2026-10-11T10:00",
     FormEvent.toggleAttendee "u-emp1"] rfl (Or.inr rfl)).2 mtgStandup (by decide)

end Hrms
